import Mathlib

/-!
Shallow embedding of the react-native-video-screenshot-plugin capture engine.

The authoritative source for most definitions is the Android module
`android/src/main/java/com/videoscreenshotplugin/VideoScreenshotPluginModule.kt`;
a small slice of the iOS module `ios/VideoScreenshotPlugin.swift` is embedded
as well (the save-to-library authorization guard and `isScreenshotSupported`).

Modelling conventions:
* Platform media primitives (`MediaMetadataRetriever.getFrameAtTime`,
  `Bitmap.compress`, MediaStore insertion, ...) are opaque to the module, so
  they are embedded as oracle functions carried by an `AndroidEnv` record, and
  their outputs as free constructors that record the inputs they were built
  from (`ImageBytes.compressed`, `PixelData.scaled`, ...).
* Kotlin `Float`/`Double` arithmetic is idealized as exact arithmetic over `ℚ`.
  `Float.MAX_VALUE` is replaced by the rational constant `floatMaxValue`, whose
  only relevant property is that it is at least `1` (it only ever feeds a
  `min` that also contains `1`).
* Fallible platform calls are embedded as `Option`/`Except`; a Kotlin
  `try { ... } catch` that converts an exception into a fallback value is a
  `match` on that `Option`/`Except`.
* JVM integer division truncates toward zero, so `Long / 1000` is `Int.tdiv`.
-/

/-- Pixel content of an in-memory image.  `decodedFrame` is an opaque frame
decoded from a media source; `placeholderPattern w h t d` is the deterministic
placeholder rendering of `drawPlaceholderBackground`/`drawPlaceholderContentOptimized`
(gradient + grid + play glyph + caption), which is a pure function of the
canvas size and the `PlayerInfo` caption inputs; `scaled p s` is `p` resampled
by the `Matrix` scale transformation of `Bitmap.createBitmap`.  A genuinely
decoded frame may be pixel-identical to a placeholder rendering, which the
free constructors allow an extraction oracle to produce. -/
inductive PixelData where
  | decodedFrame (contentId : Nat)
  | placeholderPattern (width height : Nat) (currentTimeS durationS : Int)
  | scaled (orig : PixelData) (s : ℚ)
deriving DecidableEq

/-- `android.graphics.Bitmap`: a pixel buffer with its dimensions. -/
structure Bitmap where
  width : Nat
  height : Nat
  pixels : PixelData
deriving DecidableEq

/-- `Bitmap.CompressFormat` as selected by `compressBitmapToByteArray`. -/
inductive CompressFormat where
  | png
  | webpLossless
  | webp
  | jpeg
deriving DecidableEq

/-- The byte array produced by `bitmap.compress(format, quality, stream)`.
The encoder is an opaque platform codec, so the bytes are modelled freely by
the inputs that produced them. -/
inductive ImageBytes where
  | compressed (bitmap : Bitmap) (format : CompressFormat) (quality : Int)
deriving DecidableEq

def ImageBytes.bitmap : ImageBytes → Bitmap
  | .compressed b _ _ => b

def ImageBytes.format : ImageBytes → CompressFormat
  | .compressed _ f _ => f

def ImageBytes.quality : ImageBytes → Int
  | .compressed _ _ q => q

/-- `Base64.encodeToString(data, Base64.NO_WRAP)`: an injective framing of the
encoded bytes. -/
inductive Base64Payload where
  | enc (data : ImageBytes)
deriving DecidableEq

def Base64Payload.data : Base64Payload → ImageBytes
  | .enc d => d

/-- Kotlin `String.lowercase()` (ASCII suffices for the format names used). -/
def lowercaseString (s : String) : String := ⟨s.data.map Char.toLower⟩

/-- Java `Math.round` on a nonnegative value, as used by
`Bitmap.createBitmap(source, x, y, w, h, matrix, filter)` for the scaled
output dimensions: `round x = ⌊x + 1/2⌋`. -/
def mathRound (x : ℚ) : ℤ := (x + 1 / 2).floor

/-- Stand-in for `Float.MAX_VALUE` in `resizeBitmapMaintainingAspectRatio`.
It only ever occurs under `min · 1`, so any value `≥ 1` is faithful. -/
def floatMaxValue : ℚ := 2 ^ 128

/-- Kotlin `Double.toInt()`: truncation toward zero. -/
def ratTruncToInt (x : ℚ) : ℤ := if 0 ≤ x then x.floor else x.ceil

/-- The four `MediaMetadataRetriever` extraction options of
`FRAME_EXTRACTION_OPTIONS`, plus the two fallbacks of
`attemptFallbackFrameExtraction` reuse `closestSync`. -/
inductive ExtractOption where
  | closestSync
  | closest
  | previousSync
  | nextSync
deriving DecidableEq

/-- `FRAME_EXTRACTION_OPTIONS`: extraction options in order of preference
(`OPTION_CLOSEST_SYNC`, `OPTION_CLOSEST`, `OPTION_PREVIOUS_SYNC`,
`OPTION_NEXT_SYNC`). -/
def FRAME_EXTRACTION_OPTIONS : List ExtractOption :=
  [ExtractOption.closestSync, ExtractOption.closest,
   ExtractOption.previousSync, ExtractOption.nextSync]

/-- A configured `MediaMetadataRetriever` session (already bound to a data
source).  `getFrameAtTime t opt` returning `none` covers both a `null` frame
and a thrown exception, since the source catches per-attempt exceptions and
treats them as failure; `frameAtTime` is the parameterless
`retriever.frameAtTime` used by the first fallback. -/
structure MediaMetadataRetriever where
  getFrameAtTime : Int → ExtractOption → Option Bitmap
  frameAtTime : Option Bitmap

/-- Runs a list of extraction attempts in order, stopping at the first one
that yields a frame (the `break` in the source's loops).  The second component
instruments the loop with the number of attempts actually performed, so that
"a later strategy is never attempted after one succeeds" is observable. -/
def tryEachStrategy : List (Option Bitmap) → Option Bitmap × Nat
  | [] => (none, 0)
  | attempt :: rest =>
    match attempt with
    | some bitmap => (some bitmap, 1)
    | none => ((tryEachStrategy rest).1, (tryEachStrategy rest).2 + 1)

/-- `attemptFallbackFrameExtraction`: first `retriever.frameAtTime`, then
`retriever.getFrameAtTime(0, OPTION_CLOSEST_SYNC)`. -/
def attemptFallbackFrameExtraction (retriever : MediaMetadataRetriever) :
    Option Bitmap × Nat :=
  tryEachStrategy [retriever.frameAtTime,
                   retriever.getFrameAtTime 0 ExtractOption.closestSync]

/-- `androidx.media3.common.VideoSize` (UNKNOWN is 0×0). -/
structure VideoSize where
  width : Int
  height : Int
deriving DecidableEq

def VideoSize.UNKNOWN : VideoSize := ⟨0, 0⟩

/-- `Player.playbackState`. -/
inductive PlaybackState where
  | idle
  | buffering
  | ready
  | ended
deriving DecidableEq

/-- The observable state of an `ExoPlayer` instance as read by the module.
`currentMediaUri` is `currentMediaItem?.localConfiguration?.uri`;
`videoFormat` is `some _` iff `player.videoFormat != null`.
`accessFault = some msg` models a player whose property getters throw
(e.g. released, or accessed off its application thread); the module's
catch-all handlers decide what that does to each request. -/
structure ExoPlayer where
  currentPosition : Int
  duration : Int
  videoSize : VideoSize
  currentMediaUri : Option String
  playbackState : PlaybackState
  videoFormat : Option Nat
  accessFault : Option String
deriving DecidableEq

/-- `playerRegistry : ConcurrentHashMap<String, ExoPlayer>` modelled as its
lookup function. -/
abbrev Registry := String → Option ExoPlayer

def emptyRegistry : Registry := fun _ => none

/-- `onInstanceCreated`: `playerRegistry[id] = player` (the `VideoPlayerReady`
event emission has no effect on the registry). -/
def onInstanceCreated (id : String) (player : ExoPlayer) (playerRegistry : Registry) :
    Registry :=
  fun k => if k = id then some player else playerRegistry k

/-- `onInstanceRemoved`: `playerRegistry.remove(id)`.  `ConcurrentHashMap.remove`
of an absent key is a no-op, never an error. -/
def onInstanceRemoved (id : String) (playerRegistry : Registry) : Registry :=
  fun k => if k = id then none else playerRegistry k

/-- `getPlayerById`: plain map lookup (the logging has no effect). -/
def getPlayerById (playerRegistry : Registry) (videoId : String) : Option ExoPlayer :=
  playerRegistry videoId

/-- The platform facilities the module calls into, as oracle functions.
`retrieverFor uri` is the retriever pool acquisition plus
`configureRetrieverDataSource` (`none` models a configuration exception,
which the source's outer catch converts to a `null` frame);
`galleryAuthorized` is the platform storage-permission state — the Android
module contains no permission check, so no definition below reads it;
`mediaStoreWriteMillis` is the wall-clock duration of the MediaStore write,
checked against the `withTimeout(10000)` budget;
`byteSize` is the length of an encoded byte array (`imageData.size`). -/
structure AndroidEnv where
  retrieverFor : String → Option MediaMetadataRetriever
  sdkAtLeastR : Bool
  galleryAuthorized : Bool
  mediaStoreWriteMillis : Nat
  mediaStoreInsertOk : Bool
  mediaStoreOpenOk : Bool
  newMediaStoreUri : String
  byteSize : ImageBytes → Nat

/-- The six strategy attempts of the extraction chain, in source order:
the four `FRAME_EXTRACTION_OPTIONS` at the target time, then
`retriever.frameAtTime`, then the first frame at time zero. -/
def strategyResultList (retriever : MediaMetadataRetriever) (timeUs : Int) :
    List (Option Bitmap) :=
  FRAME_EXTRACTION_OPTIONS.map (retriever.getFrameAtTime timeUs) ++
    [retriever.frameAtTime, retriever.getFrameAtTime 0 ExtractOption.closestSync]

/-- `extractFrameWithMediaMetadataRetriever`: acquire and configure a
retriever (failure → `null`), try the four `FRAME_EXTRACTION_OPTIONS` in
order, then the two fallbacks of `attemptFallbackFrameExtraction`.  The
second component counts the extraction attempts performed. -/
def extractFrameWithMediaMetadataRetriever (env : AndroidEnv) (uri : String)
    (timeUs : Int) : Option Bitmap × Nat :=
  match env.retrieverFor uri with
  | none => (none, 0)
  | some retriever =>
    let viaOptions :=
      tryEachStrategy (FRAME_EXTRACTION_OPTIONS.map (retriever.getFrameAtTime timeUs))
    match viaOptions.1 with
    | some bitmap => (some bitmap, viaOptions.2)
    | none =>
      let fallback := attemptFallbackFrameExtraction retriever
      (fallback.1, viaOptions.2 + fallback.2)

/-- `VideoInfo` (uri, timeUs, videoSize). -/
structure VideoInfo where
  uri : Option String
  timeUs : Int
  videoSize : VideoSize
deriving DecidableEq

/-- `extractVideoInfo`: main-thread read of the player state. -/
def extractVideoInfo (player : ExoPlayer) : VideoInfo :=
  { uri := player.currentMediaUri
    timeUs := player.currentPosition * 1000
    videoSize := player.videoSize }

/-- `PlayerInfo` (currentTime, duration) in seconds, via JVM `Long` division. -/
structure PlayerInfo where
  currentTime : Int
  duration : Int
deriving DecidableEq

/-- `createFallbackPlaceholder`: a placeholder bitmap sized to the known video
dimensions, per axis falling back to 1920 (width) and 1080 (height) when the
axis is not positive, painted with the deterministic placeholder pattern. -/
def createFallbackPlaceholder (videoSize : VideoSize) (player : ExoPlayer) : Bitmap :=
  let playerInfo : PlayerInfo :=
    { currentTime := Int.tdiv player.currentPosition 1000
      duration := Int.tdiv player.duration 1000 }
  let width : Nat := if 0 < videoSize.width then videoSize.width.toNat else 1920
  let height : Nat := if 0 < videoSize.height then videoSize.height.toNat else 1080
  { width := width
    height := height
    pixels := PixelData.placeholderPattern width height playerInfo.currentTime playerInfo.duration }

/-- `extractVideoFrame`: no URI → placeholder; retriever chain succeeds → the
extracted frame; chain fails → placeholder.  The source's return type is
`Bitmap?`, kept here as `Option Bitmap`, although no branch produces `none`. -/
def extractVideoFrame (env : AndroidEnv) (player : ExoPlayer) : Option Bitmap :=
  let videoInfo := extractVideoInfo player
  match videoInfo.uri with
  | none => some (createFallbackPlaceholder videoInfo.videoSize player)
  | some uri =>
    match (extractFrameWithMediaMetadataRetriever env uri videoInfo.timeUs).1 with
    | some extractedFrame => some extractedFrame
    | none => some (createFallbackPlaceholder videoInfo.videoSize player)

/-- The JavaScript options `ReadableMap`: each recognized key may be absent. -/
structure ReadableMap where
  format : Option String
  quality : Option ℚ
  maxWidth : Option Int
  maxHeight : Option Int
  includeTimestamp : Option Bool
deriving DecidableEq

/-- `ScreenshotConfig`. -/
structure ScreenshotConfig where
  format : String
  quality : Int
  maxWidth : Int
  maxHeight : Int
  includeTimestamp : Bool
deriving DecidableEq

def DEFAULT_JPEG_QUALITY : Int := 90

def DEFAULT_FORMAT : String := "jpeg"

/-- `parseScreenshotOptions`: defaults `format = "jpeg"`, `quality = 90`
(a supplied quality `q` becomes `(q * 100).toInt()`), `maxWidth = maxHeight = 0`,
`includeTimestamp = true`. -/
def parseScreenshotOptions (options : ReadableMap) : ScreenshotConfig :=
  { format := options.format.getD DEFAULT_FORMAT
    quality := match options.quality with
      | some q => ratTruncToInt (q * 100)
      | none => DEFAULT_JPEG_QUALITY
    maxWidth := (options.maxWidth).getD 0
    maxHeight := (options.maxHeight).getD 0
    includeTimestamp := (options.includeTimestamp).getD true }

/-- The `scaleX`/`scaleY`/`scale` computation of
`resizeBitmapMaintainingAspectRatio`: per-axis ratio, `Float.MAX_VALUE` for an
unconstrained axis, capped by `1` via `minOf(scaleX, scaleY, 1.0f)`. -/
def codeScale (originalWidth originalHeight : Nat) (maxWidth maxHeight : Int) : ℚ :=
  min (min (if 0 < maxWidth then (maxWidth : ℚ) / originalWidth else floatMaxValue)
           (if 0 < maxHeight then (maxHeight : ℚ) / originalHeight else floatMaxValue)) 1

/-- `resizeBitmapMaintainingAspectRatio`: `scale ≥ 1` returns the bitmap
unchanged, otherwise a `Matrix`-scaled copy whose dimensions are `Math.round`
of the exactly scaled dimensions. -/
def resizeBitmapMaintainingAspectRatio (bitmap : Bitmap) (maxWidth maxHeight : Int) :
    Bitmap :=
  if maxWidth ≤ 0 ∧ maxHeight ≤ 0 then bitmap
  else if 1 ≤ codeScale bitmap.width bitmap.height maxWidth maxHeight then bitmap
  else
    { width := (mathRound (codeScale bitmap.width bitmap.height maxWidth maxHeight * bitmap.width)).toNat
      height := (mathRound (codeScale bitmap.width bitmap.height maxWidth maxHeight * bitmap.height)).toNat
      pixels := PixelData.scaled bitmap.pixels (codeScale bitmap.width bitmap.height maxWidth maxHeight) }

/-- Format selection of `compressBitmapToByteArray` (and of the MediaStore
write): `"png"` → PNG, `"webp"` → WEBP_LOSSLESS on SDK ≥ R else WEBP,
anything else → JPEG. -/
def compressFormatFor (sdkAtLeastR : Bool) (format : String) : CompressFormat :=
  if lowercaseString format = "png" then CompressFormat.png
  else if lowercaseString format = "webp" then
    (if sdkAtLeastR then CompressFormat.webpLossless else CompressFormat.webp)
  else CompressFormat.jpeg

/-- `compressBitmapToByteArray bitmap format quality`. -/
def compressBitmapToByteArray (sdkAtLeastR : Bool) (bitmap : Bitmap) (format : String)
    (quality : Int) : ImageBytes :=
  ImageBytes.compressed bitmap (compressFormatFor sdkAtLeastR format) quality

/-- MIME type selection of `saveImageToMediaStore`. -/
def mimeTypeFor (format : String) : String :=
  if lowercaseString format = "png" then "image/png"
  else if lowercaseString format = "webp" then "image/webp"
  else "image/jpeg"

/-- A completed write into the shared MediaStore collection. -/
structure MediaStoreWrite where
  bytes : ImageBytes
  mimeType : String
deriving DecidableEq

/-- The exceptions the capture pipeline can raise. -/
inductive CaptureError where
  | frameExtractionFailed
  | playerAccessThrew (msg : String)
  | mediaStoreTimeout
  | mediaStoreInsertFailed
  | mediaStoreOpenFailed
deriving DecidableEq

/-- `saveImageToMediaStore`: the whole write runs under `withTimeout(10000)`;
inside, a failed `contentResolver.insert` or `openOutputStream` raises an
`IOException`, and the bitmap is re-compressed at the fixed quality literal
`90`.  On success it returns the new content URI. -/
def saveImageToMediaStore (env : AndroidEnv) (bitmap : Bitmap) (format : String) :
    Except CaptureError (String × MediaStoreWrite) :=
  if 10000 < env.mediaStoreWriteMillis then Except.error CaptureError.mediaStoreTimeout
  else if env.mediaStoreInsertOk = false then Except.error CaptureError.mediaStoreInsertFailed
  else if env.mediaStoreOpenOk = false then Except.error CaptureError.mediaStoreOpenFailed
  else
    Except.ok (env.newMediaStoreUri,
      { bytes := ImageBytes.compressed bitmap (compressFormatFor env.sdkAtLeastR format) 90
        mimeType := mimeTypeFor format })

/-- The filesystem visible to `saveImageDataToFile`, as an idealized in-memory
model: a directory-existence predicate and a file-content map, both keyed by
paths given as component lists. -/
structure FileSystem where
  dirs : List String → Bool
  files : List String → Option ImageBytes

/-- `File.mkdirs()`: creates the directory and every missing ancestor. -/
def mkdirs (fs : FileSystem) (dir : List String) : FileSystem :=
  { fs with dirs := fun d => d.isPrefixOf dir || fs.dirs d }

/-- `saveImageDataToFile`: `file.parentFile?.mkdirs()` then write the bytes;
returns the `File` (its path). -/
def saveImageDataToFile (fs : FileSystem) (imageData : ImageBytes)
    (filePath : List String) : FileSystem × List String :=
  let fs2 := mkdirs fs filePath.dropLast
  ({ fs2 with files := fun p => if p = filePath then some imageData else fs2.files p },
   filePath)

/-- `File.absolutePath` of a component-list path. -/
def pathToString (p : List String) : String :=
  p.foldl (fun acc c => acc ++ "/" ++ c) ""

/-- `ScreenshotOutputMode`. -/
inductive ScreenshotOutputMode where
  | base64Only
  | saveToLibrary
  | saveToPath (filePath : List String)

/-- The `WritableMap` resolved back to JavaScript: exactly the keys the
source ever puts (`base64`, `width`, `height`, and optionally `timestamp`,
`uri`, `size`).  There is no further field. -/
structure ScreenshotResult where
  base64 : Base64Payload
  width : Nat
  height : Nat
  timestamp : Option ℚ
  uri : Option String
  size : Option Nat
deriving DecidableEq

/-- Result of one run of the core pipeline: the value-or-exception, the
MediaStore writes performed, and the filesystem after the run. -/
structure CaptureOutcome where
  result : Except CaptureError ScreenshotResult
  storeWrites : List MediaStoreWrite
  fs : FileSystem

/-- `captureFrameFromPlayer`: parse options, read the timestamp, extract the
frame, resize when a constraint is present, encode, build the result map, and
dispatch on the output mode. -/
def captureFrameFromPlayer (env : AndroidEnv) (fs : FileSystem) (player : ExoPlayer)
    (options : ReadableMap) (outputMode : ScreenshotOutputMode) : CaptureOutcome :=
  let config := parseScreenshotOptions options
  match player.accessFault with
  | some msg => { result := Except.error (CaptureError.playerAccessThrew msg), storeWrites := [], fs := fs }
  | none =>
    let timestamp : Option ℚ :=
      if config.includeTimestamp then some ((player.currentPosition : ℚ) / 1000) else none
    match extractVideoFrame env player with
    | none => { result := Except.error CaptureError.frameExtractionFailed, storeWrites := [], fs := fs }
    | some originalBitmap =>
      let processedBitmap :=
        if 0 < config.maxWidth ∨ 0 < config.maxHeight then
          resizeBitmapMaintainingAspectRatio originalBitmap config.maxWidth config.maxHeight
        else originalBitmap
      let imageData := compressBitmapToByteArray env.sdkAtLeastR processedBitmap config.format config.quality
      let result0 : ScreenshotResult :=
        { base64 := Base64Payload.enc imageData
          width := processedBitmap.width
          height := processedBitmap.height
          timestamp := timestamp
          uri := none
          size := none }
      match outputMode with
      | ScreenshotOutputMode.saveToLibrary =>
        match saveImageToMediaStore env processedBitmap config.format with
        | Except.error e => { result := Except.error e, storeWrites := [], fs := fs }
        | Except.ok (mediaUri, write) =>
          { result := Except.ok { result0 with uri := some mediaUri }
            storeWrites := [write]
            fs := fs }
      | ScreenshotOutputMode.saveToPath filePath =>
        let saved := saveImageDataToFile fs imageData filePath
        { result := Except.ok { result0 with
            uri := some (pathToString saved.2)
            size := some (env.byteSize imageData) }
          storeWrites := []
          fs := saved.1 }
      | ScreenshotOutputMode.base64Only =>
        { result := Except.ok result0, storeWrites := [], fs := fs }

/-- What a `@ReactMethod` does with its `Promise`. -/
inductive PromiseOutcome (α : Type) where
  | resolved (value : α)
  | rejected (code : String) (cause : Option CaptureError)
deriving DecidableEq

def PromiseOutcome.isResolved {α : Type} : PromiseOutcome α → Bool
  | .resolved _ => true
  | .rejected _ _ => false

/-- Outcome of a whole `@ReactMethod` call. -/
structure MethodOutcome where
  promise : PromiseOutcome ScreenshotResult
  storeWrites : List MediaStoreWrite
  fs : FileSystem

/-- Shared body of the three capture methods: look the player up (absent →
reject `PLAYER_NOT_FOUND`), run the pipeline, resolve its value or reject any
exception with the method's failure code. -/
def dispatchScreenshotRequest (env : AndroidEnv) (fs : FileSystem)
    (playerRegistry : Registry) (videoId : String) (options : ReadableMap)
    (outputMode : ScreenshotOutputMode) (failureCode : String) : MethodOutcome :=
  match getPlayerById playerRegistry videoId with
  | none => { promise := PromiseOutcome.rejected "PLAYER_NOT_FOUND" none, storeWrites := [], fs := fs }
  | some player =>
    let outcome := captureFrameFromPlayer env fs player options outputMode
    match outcome.result with
    | Except.ok result =>
      { promise := PromiseOutcome.resolved result, storeWrites := outcome.storeWrites, fs := outcome.fs }
    | Except.error e =>
      { promise := PromiseOutcome.rejected failureCode (some e), storeWrites := outcome.storeWrites, fs := outcome.fs }

/-- `captureScreenshot` (base64-only mode, failures rejected as `CAPTURE_FAILED`). -/
def captureScreenshot (env : AndroidEnv) (fs : FileSystem) (playerRegistry : Registry)
    (videoId : String) (options : ReadableMap) : MethodOutcome :=
  dispatchScreenshotRequest env fs playerRegistry videoId options
    ScreenshotOutputMode.base64Only "CAPTURE_FAILED"

/-- `saveScreenshotToLibrary` (gallery mode, failures rejected as `SAVE_FAILED`).
Note: the Android method performs no permission check of any kind before the
MediaStore write. -/
def saveScreenshotToLibrary (env : AndroidEnv) (fs : FileSystem) (playerRegistry : Registry)
    (videoId : String) (options : ReadableMap) : MethodOutcome :=
  dispatchScreenshotRequest env fs playerRegistry videoId options
    ScreenshotOutputMode.saveToLibrary "SAVE_FAILED"

/-- `saveScreenshotToPath`. -/
def saveScreenshotToPath (env : AndroidEnv) (fs : FileSystem) (playerRegistry : Registry)
    (videoId : String) (filePath : List String) (options : ReadableMap) : MethodOutcome :=
  dispatchScreenshotRequest env fs playerRegistry videoId options
    (ScreenshotOutputMode.saveToPath filePath) "SAVE_FAILED"

/-- `isPlayerReadyForScreenshot`: `playbackState == STATE_READY && videoFormat != null`,
on a player whose property getters may throw. -/
def isPlayerReadyForScreenshot (player : ExoPlayer) : Except String Bool :=
  match player.accessFault with
  | some msg => Except.error msg
  | none =>
    Except.ok (decide (player.playbackState = PlaybackState.ready ∧ player.videoFormat.isSome))

/-- `isScreenshotSupported`: unknown player → `resolve(false)`; otherwise the
readiness check runs inside a catch-all that resolves `false` on any
exception.  The promise is never rejected. -/
def isScreenshotSupported (playerRegistry : Registry) (videoId : String) :
    PromiseOutcome Bool :=
  match getPlayerById playerRegistry videoId with
  | none => PromiseOutcome.resolved false
  | some player =>
    match isPlayerReadyForScreenshot player with
    | Except.ok supported => PromiseOutcome.resolved supported
    | Except.error _ => PromiseOutcome.resolved false

/-! ### iOS (`ios/VideoScreenshotPlugin.swift`) -/

/-- `AVAssetTrack`: whether its media type is `.video`, and `isPlayable`. -/
structure AVAssetTrack where
  mediaTypeIsVideo : Bool
  isPlayable : Bool
deriving DecidableEq

/-- `AVPlayerItemTrack` with its optional `assetTrack`. -/
structure AVPlayerItemTrack where
  assetTrack : Option AVAssetTrack
deriving DecidableEq

/-- `AVPlayerItem`: its tracks and whether `status == .readyToPlay`. -/
structure AVPlayerItem where
  tracks : List AVPlayerItemTrack
  statusReadyToPlay : Bool
deriving DecidableEq

/-- `AVPlayer` with its optional `currentItem`. -/
structure AVPlayer where
  currentItem : Option AVPlayerItem
deriving DecidableEq

/-- `playerItem.tracks.first(where: { $0.assetTrack?.mediaType == .video })?.assetTrack`. -/
def firstVideoAssetTrack (playerItem : AVPlayerItem) : Option AVAssetTrack :=
  (playerItem.tracks.find? fun t =>
      match t.assetTrack with
      | some track => track.mediaTypeIsVideo
      | none => false).bind
    (fun t => t.assetTrack)

/-- iOS `isScreenshotSupported`: unknown player, no current item or no video
track → `resolve(false)`; otherwise `isPlayable && status == .readyToPlay`. -/
def iosIsScreenshotSupported (players : String → Option AVPlayer) (videoId : String) :
    PromiseOutcome Bool :=
  match players videoId with
  | none => PromiseOutcome.resolved false
  | some player =>
    match player.currentItem with
    | none => PromiseOutcome.resolved false
    | some playerItem =>
      match firstVideoAssetTrack playerItem with
      | none => PromiseOutcome.resolved false
      | some videoTrack =>
        PromiseOutcome.resolved (videoTrack.isPlayable && playerItem.statusReadyToPlay)

/-- Outcome of the iOS `saveScreenshotToLibrary` guard chain.
`captureStarted` means control reached `captureFrameFromPlayer` (the only
path on which the photo-library write can ever be attempted). -/
inductive IosLibraryOutcome where
  | rejected (code : String)
  | captureStarted (player : AVPlayer) (playerItem : AVPlayerItem)
deriving DecidableEq

/-- iOS `saveScreenshotToLibrary`: guards for player and current item, then
`PHPhotoLibrary.requestAuthorization`; only an `.authorized` status lets the
capture (and hence the write) start, anything else rejects
`PERMISSION_DENIED`. -/
def iosSaveScreenshotToLibrary (players : String → Option AVPlayer) (videoId : String)
    (photoLibraryAuthorized : Bool) : IosLibraryOutcome :=
  match players videoId with
  | none => IosLibraryOutcome.rejected "PLAYER_NOT_FOUND"
  | some player =>
    match player.currentItem with
    | none => IosLibraryOutcome.rejected "NO_CURRENT_ITEM"
    | some playerItem =>
      if photoLibraryAuthorized then IosLibraryOutcome.captureStarted player playerItem
      else IosLibraryOutcome.rejected "PERMISSION_DENIED"

/-- Whether the library write could have been attempted on this outcome. -/
def iosLibraryWriteAttempted : IosLibraryOutcome → Bool
  | IosLibraryOutcome.captureStarted _ _ => true
  | IosLibraryOutcome.rejected _ => false

set_option maxRecDepth 8000

deriving instance DecidableEq for Except

/-! ### Spec-side definitions and concrete instances -/

/-- The scale formula as the spec states it: `min(maxWidth/origWidth,
maxHeight/origHeight, 1.0)` with an absent/zero constraint treated as infinity
on its axis.  Since the min always contains the cap `1`, dropping an infinite
term is the same as contributing `1`, which is how it is written here. -/
def specScale (origWidth origHeight : Nat) (maxWidth maxHeight : Int) : ℚ :=
  min (min (if 0 < maxWidth then (maxWidth : ℚ) / origWidth else 1)
           (if 0 < maxHeight then (maxHeight : ℚ) / origHeight else 1)) 1

/-- All six extraction strategies of a configured retriever fail (return no
frame or throw), at every requested time. -/
def AllStrategiesFail (retriever : MediaMetadataRetriever) : Prop :=
  (∀ timeUs opt, retriever.getFrameAtTime timeUs opt = none) ∧
    retriever.frameAtTime = none

/-- Every frame-extraction route for this player fails: either there is no
media URI at all, or configuring the retriever throws, or every strategy of
the configured retriever fails. -/
def ExtractionFailsFor (env : AndroidEnv) (player : ExoPlayer) : Prop :=
  ∀ uri, player.currentMediaUri = some uri →
    (env.retrieverFor uri = none ∨
      ∃ retriever, env.retrieverFor uri = some retriever ∧ AllStrategiesFail retriever)

/-- A retriever whose every extraction attempt fails. -/
def retrieverAllFail : MediaMetadataRetriever :=
  { getFrameAtTime := fun _ _ => none, frameAtTime := none }

/-- A healthy player with a loaded media item whose video dimensions are not
yet known (`VideoSize.UNKNOWN`), at position 0. -/
def exPlayer : ExoPlayer :=
  { currentPosition := 0
    duration := 0
    videoSize := VideoSize.UNKNOWN
    currentMediaUri := some "file:///video.mp4"
    playbackState := PlaybackState.ready
    videoFormat := some 0
    accessFault := none }

/-- A player whose property getters throw. -/
def exFaultPlayer : ExoPlayer :=
  { exPlayer with accessFault := some "player released" }

/-- Registry holding `exPlayer` under id `"vid"`. -/
def exRegistry : Registry := onInstanceCreated "vid" exPlayer emptyRegistry

/-- Registry additionally holding the faulting player under id `"bad"`. -/
def exRegistryFault : Registry := onInstanceCreated "bad" exFaultPlayer exRegistry

/-- Empty options map: all defaults. -/
def exOptions : ReadableMap :=
  { format := none, quality := none, maxWidth := none, maxHeight := none,
    includeTimestamp := none }

/-- Options map with an explicit `quality` of 0.5. -/
def exOptionsHalfQ : ReadableMap := { exOptions with quality := some (1 / 2) }

/-- A filesystem with only the root directory. -/
def exFs : FileSystem := { dirs := fun d => d.isEmpty, files := fun _ => none }

/-- Environment in which every extraction attempt fails, the MediaStore is
fast and functional, and gallery authorization is NOT granted. -/
def exEnvAllFail : AndroidEnv :=
  { retrieverFor := fun _ => some retrieverAllFail
    sdkAtLeastR := true
    galleryAuthorized := false
    mediaStoreWriteMillis := 0
    mediaStoreInsertOk := true
    mediaStoreOpenOk := true
    newMediaStoreUri := "content://media/external/images/media/42"
    byteSize := fun _ => 1234 }

/-- Environment whose MediaStore write takes 20 s, exceeding the 10 s budget. -/
def exEnvTimeout : AndroidEnv := { exEnvAllFail with mediaStoreWriteMillis := 20000 }

/-- A genuinely decoded frame. -/
def exFrame : Bitmap := { width := 640, height := 360, pixels := PixelData.decodedFrame 7 }

/-- A retriever for which only the third strategy (`OPTION_PREVIOUS_SYNC`)
yields a frame. -/
def exRetrieverThird : MediaMetadataRetriever :=
  { getFrameAtTime := fun _ opt =>
      match opt with
      | ExtractOption.previousSync => some exFrame
      | _ => none
    frameAtTime := none }

/-- Environment wrapping `exRetrieverThird`. -/
def exEnvThird : AndroidEnv := { exEnvAllFail with retrieverFor := fun _ => some exRetrieverThird }

/-- The placeholder bitmap `createFallbackPlaceholder` builds for `exPlayer`:
unknown dimensions fall back to 1920×1080, caption inputs 0 s / 0 s. -/
def exPlaceholderBitmap : Bitmap :=
  { width := 1920, height := 1080, pixels := PixelData.placeholderPattern 1920 1080 0 0 }

/-- A retriever whose first strategy returns a decoded frame that happens to
be pixel-identical to `exPlaceholderBitmap`. -/
def exRetrieverPlaceholderLike : MediaMetadataRetriever :=
  { getFrameAtTime := fun _ _ => some exPlaceholderBitmap, frameAtTime := none }

/-- Environment wrapping `exRetrieverPlaceholderLike`. -/
def exEnvGenuine : AndroidEnv :=
  { exEnvAllFail with retrieverFor := fun _ => some exRetrieverPlaceholderLike }

/-- The result `captureScreenshot` produces for `exPlayer` with default
options when extraction fails: the encoded placeholder. -/
def exPlaceholderResult : ScreenshotResult :=
  { base64 := Base64Payload.enc (ImageBytes.compressed exPlaceholderBitmap CompressFormat.jpeg 90)
    width := 1920
    height := 1080
    timestamp := some 0
    uri := none
    size := none }

/-- An `AVPlayerItem` with a current item but no video track, not ready. -/
def exIosItem : AVPlayerItem := { tracks := [], statusReadyToPlay := false }

/-- An `AVPlayer` holding `exIosItem`. -/
def exIosPlayer : AVPlayer := { currentItem := some exIosItem }

/-- iOS players map holding `exIosPlayer` under `"vid"`. -/
def exIosPlayers : String → Option AVPlayer :=
  fun k => if k = "vid" then some exIosPlayer else none

/-- Bitmap used in the resize witness: 4×2 pixels. -/
def exWideBitmap : Bitmap := { width := 4, height := 2, pixels := PixelData.decodedFrame 3 }

/-- Path with not-yet-existing parent directories. -/
def exPath : List String := ["tmp", "new", "nested", "dir", "shot.jpg"]

/-! ### Helper lemmas -/

theorem tryEachStrategy_all_none (l : List (Option Bitmap))
    (h : ∀ x ∈ l, x = none) : tryEachStrategy l = (none, l.length) := by
  induction l with
  | nil => rfl
  | cons a t ih =>
    have ha : a = none := h a (List.mem_cons_self a t)
    subst ha
    have ht := ih (fun x hx => h x (List.mem_cons_of_mem _ hx))
    simp [tryEachStrategy, ht]

theorem tryEachStrategy_first_success (l : List (Option Bitmap)) (i : Nat) (b : Bitmap)
    (hi : l.get? i = some (some b))
    (hbefore : ∀ j, j < i → l.get? j = some none) :
    tryEachStrategy l = (some b, i + 1) := by
  induction l generalizing i with
  | nil => simp at hi
  | cons a t ih =>
    cases i with
    | zero =>
      simp only [List.get?] at hi
      injection hi with hi
      subst hi
      rfl
    | succ i' =>
      have h0 := hbefore 0 (Nat.succ_pos _)
      simp only [List.get?] at h0
      injection h0 with h0
      subst h0
      have ht := ih i' hi (fun j hj => hbefore (j + 1) (Nat.succ_lt_succ hj))
      simp [tryEachStrategy, ht]

theorem tryEachStrategy_append (l₁ l₂ : List (Option Bitmap)) :
    tryEachStrategy (l₁ ++ l₂) =
      match (tryEachStrategy l₁).1 with
      | some b => (some b, (tryEachStrategy l₁).2)
      | none => ((tryEachStrategy l₂).1, (tryEachStrategy l₁).2 + (tryEachStrategy l₂).2) := by
  induction l₁ with
  | nil => simp [tryEachStrategy]
  | cons a t ih =>
    cases a with
    | some b => simp [tryEachStrategy]
    | none =>
      simp only [List.cons_append, tryEachStrategy, List.append_eq]
      rw [ih]
      cases h : (tryEachStrategy t).1 with
      | some b => simp
      | none => simp [Nat.add_right_comm]

theorem extractFrame_eq_chain (env : AndroidEnv) (uri : String) (timeUs : Int)
    (retriever : MediaMetadataRetriever)
    (hret : env.retrieverFor uri = some retriever) :
    extractFrameWithMediaMetadataRetriever env uri timeUs =
      tryEachStrategy (strategyResultList retriever timeUs) := by
  unfold extractFrameWithMediaMetadataRetriever strategyResultList
  rw [hret]
  rw [tryEachStrategy_append]
  unfold attemptFallbackFrameExtraction
  cases h : (tryEachStrategy (FRAME_EXTRACTION_OPTIONS.map (retriever.getFrameAtTime timeUs))).1 with
  | some b => simp [h]
  | none => simp [h]

theorem chain_none_of_all_fail (env : AndroidEnv) (uri : String) (timeUs : Int)
    (retriever : MediaMetadataRetriever)
    (hret : env.retrieverFor uri = some retriever)
    (hall : AllStrategiesFail retriever) :
    extractFrameWithMediaMetadataRetriever env uri timeUs = (none, 6) := by
  rw [extractFrame_eq_chain env uri timeUs retriever hret]
  have hmem : ∀ x ∈ strategyResultList retriever timeUs, x = none := by
    intro x hx
    simp only [strategyResultList, FRAME_EXTRACTION_OPTIONS, List.map, List.mem_append,
      List.mem_cons, List.mem_singleton, List.not_mem_nil, or_false] at hx
    rcases hx with (h | h | h | h) | h | h <;> rw [h]
    · exact hall.1 _ _
    · exact hall.1 _ _
    · exact hall.1 _ _
    · exact hall.1 _ _
    · exact hall.2
    · exact hall.1 _ _
  rw [tryEachStrategy_all_none _ hmem]
  simp [strategyResultList, FRAME_EXTRACTION_OPTIONS]

theorem extractVideoFrame_isSome (env : AndroidEnv) (player : ExoPlayer) :
    ∃ b, extractVideoFrame env player = some b := by
  unfold extractVideoFrame
  cases huri : (extractVideoInfo player).uri with
  | none =>
    exact ⟨createFallbackPlaceholder (extractVideoInfo player).videoSize player,
      by simp [huri]⟩
  | some uri =>
    cases hfr : (extractFrameWithMediaMetadataRetriever env uri (extractVideoInfo player).timeUs).1 with
    | some b => exact ⟨b, by simp [huri, hfr]⟩
    | none =>
      exact ⟨createFallbackPlaceholder (extractVideoInfo player).videoSize player,
        by simp [huri, hfr]⟩

theorem extractVideoFrame_placeholder_of_fail (env : AndroidEnv) (player : ExoPlayer)
    (hfail : ExtractionFailsFor env player) :
    extractVideoFrame env player =
      some (createFallbackPlaceholder player.videoSize player) := by
  unfold extractVideoFrame extractVideoInfo
  cases huri : player.currentMediaUri with
  | none => simp
  | some uri =>
    rcases hfail uri huri with hnone | ⟨retriever, hret, hall⟩
    · have hchain : extractFrameWithMediaMetadataRetriever env uri (player.currentPosition * 1000) = (none, 0) := by
        unfold extractFrameWithMediaMetadataRetriever
        rw [hnone]
      simp [hchain]
    · have hchain := chain_none_of_all_fail env uri (player.currentPosition * 1000) retriever hret hall
      simp [hchain]

/-! ### Claim theorems -/

/-- Claim C4: registering an id then looking it up returns the handle;
unregistering then looking up returns none; unregistering an absent id is a
no-op on the registry (and, the registry being a total function, not an
error). -/
theorem registry_register_lookup_properties
    (playerRegistry : Registry) (id : String) (player : ExoPlayer) :
    getPlayerById (onInstanceCreated id player playerRegistry) id = some player ∧
    getPlayerById (onInstanceRemoved id playerRegistry) id = none ∧
    (getPlayerById playerRegistry id = none →
      onInstanceRemoved id playerRegistry = playerRegistry) := by
  refine ⟨?_, ?_, ?_⟩
  · simp [getPlayerById, onInstanceCreated]
  · simp [getPlayerById, onInstanceRemoved]
  · intro h
    funext k
    unfold onInstanceRemoved
    by_cases hk : k = id
    · rw [if_pos hk, hk]
      exact (h : playerRegistry id = none).symm
    · rw [if_neg hk]

/-- Witness for C4 at a concrete registry, id and player. -/
theorem registry_register_lookup_properties_witness :
    getPlayerById (onInstanceCreated "a" exPlayer emptyRegistry) "a" = some exPlayer ∧
    getPlayerById (onInstanceRemoved "a" emptyRegistry) "a" = none ∧
    onInstanceRemoved "a" emptyRegistry = emptyRegistry :=
  ⟨(registry_register_lookup_properties emptyRegistry "a" exPlayer).1,
   (registry_register_lookup_properties emptyRegistry "a" exPlayer).2.1,
   (registry_register_lookup_properties emptyRegistry "a" exPlayer).2.2 rfl⟩

/-- Claim C2: the extraction chain tries closest-sync, closest-any,
previous-sync, next-sync, any decodable frame, first frame at time zero, in
that order; if the strategy at position `i` is the first to succeed, its frame
is returned and exactly `i + 1` attempts are performed, so no strategy after a
success is ever attempted. -/
theorem extraction_chain_first_success
    (env : AndroidEnv) (uri : String) (timeUs : Int)
    (retriever : MediaMetadataRetriever) (i : Nat) (bitmap : Bitmap)
    (hret : env.retrieverFor uri = some retriever)
    (hi : (strategyResultList retriever timeUs).get? i = some (some bitmap))
    (hbefore : ∀ j, j < i → (strategyResultList retriever timeUs).get? j = some none) :
    extractFrameWithMediaMetadataRetriever env uri timeUs = (some bitmap, i + 1) := by
  rw [extractFrame_eq_chain env uri timeUs retriever hret]
  exact tryEachStrategy_first_success _ i bitmap hi hbefore

/-- Witness for C2: only the third strategy succeeds, so its frame is
returned after exactly three attempts. -/
theorem extraction_chain_first_success_witness :
    (strategyResultList exRetrieverThird 0).get? 2 = some (some exFrame) ∧
    extractFrameWithMediaMetadataRetriever exEnvThird "file:///video.mp4" 0 =
      (some exFrame, 3) :=
  ⟨by decide,
   extraction_chain_first_success exEnvThird "file:///video.mp4" 0 exRetrieverThird 2 exFrame
     rfl (by decide) (by decide)⟩

theorem ratFloor_eq_intFloor (x : ℚ) : x.floor = ⌊x⌋ :=
  (Rat.floor_def' x).trans Rat.floor_def.symm

theorem mathRound_eq (x : ℚ) : mathRound x = ⌊x + 1 / 2⌋ := by
  unfold mathRound
  exact ratFloor_eq_intFloor _

theorem mathRound_abs_le (x : ℚ) : |(mathRound x : ℚ) - x| ≤ 1 / 2 := by
  rw [mathRound_eq, abs_le]
  constructor
  · have h := Int.sub_one_lt_floor (x + 1 / 2)
    push_cast at h ⊢
    linarith
  · have h := Int.floor_le (x + 1 / 2)
    push_cast at h ⊢
    linarith

theorem mathRound_nonneg (x : ℚ) (hx : 0 ≤ x) : 0 ≤ mathRound x := by
  rw [mathRound_eq]
  exact Int.floor_nonneg.mpr (by linarith)

theorem specScale_pos (w h : Nat) (mw mh : Int) (hw : 0 < w) (hh : 0 < h) :
    0 < specScale w h mw mh := by
  unfold specScale
  refine lt_min (lt_min ?_ ?_) one_pos
  · split
    · next hmw => exact div_pos (by exact_mod_cast hmw) (by exact_mod_cast hw)
    · exact one_pos
  · split
    · next hmh => exact div_pos (by exact_mod_cast hmh) (by exact_mod_cast hh)
    · exact one_pos

theorem codeScale_eq_specScale (w h : Nat) (mw mh : Int) :
    codeScale w h mw mh = specScale w h mw mh := by
  unfold codeScale specScale
  have hM : (1 : ℚ) ≤ floatMaxValue := by norm_num [floatMaxValue]
  by_cases h1 : 0 < mw <;> by_cases h2 : 0 < mh
  · rw [if_pos h1, if_pos h2, if_pos h1, if_pos h2]
  · rw [if_pos h1, if_neg h2, if_pos h1, if_neg h2, min_assoc, min_assoc,
      min_eq_right hM, min_self]
  · rw [if_neg h1, if_pos h2, if_neg h1, if_pos h2, min_assoc, min_assoc,
      min_eq_right (le_trans (min_le_right _ _) hM),
      min_eq_right (min_le_right _ _)]
  · rw [if_neg h1, if_neg h2, if_neg h1, if_neg h2, min_self, min_self,
      min_eq_right hM, min_self]

/-- Claim C3: for a captured frame and nonnegative constraints, with
`scale = min(maxWidth/origWidth, maxHeight/origHeight, 1)` (a zero constraint
contributing nothing to the min), `scale ≥ 1` leaves the frame unmodified
(never upscales), and `scale < 1` yields dimensions that are the integer
roundings of `(origWidth*scale, origHeight*scale)`, each within half a pixel
of the exactly scaled value, whose exact pre-rounding values preserve the
original aspect ratio. -/
theorem resize_matches_scale_spec
    (bitmap : Bitmap) (maxWidth maxHeight : Int)
    (hw : 0 < bitmap.width) (hh : 0 < bitmap.height)
    (hmw : 0 ≤ maxWidth) (hmh : 0 ≤ maxHeight) :
    (1 ≤ specScale bitmap.width bitmap.height maxWidth maxHeight →
      resizeBitmapMaintainingAspectRatio bitmap maxWidth maxHeight = bitmap) ∧
    (specScale bitmap.width bitmap.height maxWidth maxHeight < 1 →
      ((resizeBitmapMaintainingAspectRatio bitmap maxWidth maxHeight).width : ℤ) =
        mathRound (specScale bitmap.width bitmap.height maxWidth maxHeight * bitmap.width) ∧
      ((resizeBitmapMaintainingAspectRatio bitmap maxWidth maxHeight).height : ℤ) =
        mathRound (specScale bitmap.width bitmap.height maxWidth maxHeight * bitmap.height) ∧
      |(mathRound (specScale bitmap.width bitmap.height maxWidth maxHeight * bitmap.width) : ℚ) -
          specScale bitmap.width bitmap.height maxWidth maxHeight * bitmap.width| ≤ 1 / 2 ∧
      |(mathRound (specScale bitmap.width bitmap.height maxWidth maxHeight * bitmap.height) : ℚ) -
          specScale bitmap.width bitmap.height maxWidth maxHeight * bitmap.height| ≤ 1 / 2 ∧
      specScale bitmap.width bitmap.height maxWidth maxHeight * bitmap.width * bitmap.height =
        specScale bitmap.width bitmap.height maxWidth maxHeight * bitmap.height * bitmap.width) := by
  unfold resizeBitmapMaintainingAspectRatio
  rw [codeScale_eq_specScale]
  by_cases hzero : maxWidth ≤ 0 ∧ maxHeight ≤ 0
  · have hone : specScale bitmap.width bitmap.height maxWidth maxHeight = 1 := by
      unfold specScale
      rw [if_neg (not_lt.mpr hzero.1), if_neg (not_lt.mpr hzero.2), min_self, min_self]
    rw [if_pos hzero]
    refine ⟨fun _ => rfl, fun hlt => absurd hlt ?_⟩
    rw [hone]
    exact lt_irrefl 1
  · rw [if_neg hzero]
    constructor
    · intro h1
      rw [if_pos h1]
    · intro hlt
      rw [if_neg (not_le.mpr hlt)]
      have hspos : 0 < specScale bitmap.width bitmap.height maxWidth maxHeight :=
        specScale_pos _ _ _ _ hw hh
      have hwpos : (0 : ℚ) < (bitmap.width : ℚ) := by exact_mod_cast hw
      have hhpos : (0 : ℚ) < (bitmap.height : ℚ) := by exact_mod_cast hh
      refine ⟨?_, ?_, mathRound_abs_le _, mathRound_abs_le _, by ring⟩
      · exact Int.toNat_of_nonneg (mathRound_nonneg _ (le_of_lt (mul_pos hspos hwpos)))
      · exact Int.toNat_of_nonneg (mathRound_nonneg _ (le_of_lt (mul_pos hspos hhpos)))

/-- Witness for C3: a 4×2 frame constrained to maxWidth 2 has scale 1/2 < 1
and is resized to the rounded scaled dimensions. -/
theorem resize_matches_scale_spec_witness :
    specScale exWideBitmap.width exWideBitmap.height 2 0 < 1 ∧
    ((resizeBitmapMaintainingAspectRatio exWideBitmap 2 0).width : ℤ) =
      mathRound (specScale exWideBitmap.width exWideBitmap.height 2 0 * exWideBitmap.width) :=
  ⟨by with_unfolding_all decide,
   ((resize_matches_scale_spec exWideBitmap 2 0 (by decide) (by decide) (by decide) (by decide)).2
     (by with_unfolding_all decide)).1⟩

/-- Claim C1: when the player is found and every extraction route fails, the
capture request still resolves successfully; the frame used is the synthesized
placeholder, whose width is the player's last-known video width when positive
and 1920 otherwise, and whose height is the last-known video height when
positive and 1080 otherwise. -/
theorem capture_succeeds_with_placeholder
    (env : AndroidEnv) (fs : FileSystem) (playerRegistry : Registry) (videoId : String)
    (player : ExoPlayer) (options : ReadableMap)
    (hfound : getPlayerById playerRegistry videoId = some player)
    (hhealthy : player.accessFault = none)
    (hfail : ExtractionFailsFor env player) :
    (captureScreenshot env fs playerRegistry videoId options).promise.isResolved = true ∧
    extractVideoFrame env player = some (createFallbackPlaceholder player.videoSize player) ∧
    (createFallbackPlaceholder player.videoSize player).width =
      (if 0 < player.videoSize.width then player.videoSize.width.toNat else 1920) ∧
    (createFallbackPlaceholder player.videoSize player).height =
      (if 0 < player.videoSize.height then player.videoSize.height.toNat else 1080) := by
  have hb := extractVideoFrame_placeholder_of_fail env player hfail
  refine ⟨?_, hb, rfl, rfl⟩
  simp only [captureScreenshot, dispatchScreenshotRequest, hfound]
  simp only [captureFrameFromPlayer, hhealthy, hb]
  simp [PromiseOutcome.isResolved]

/-- Witness for C1 at a concrete failing environment and registered player. -/
theorem capture_succeeds_with_placeholder_witness :
    getPlayerById exRegistry "vid" = some exPlayer ∧
    (captureScreenshot exEnvAllFail exFs exRegistry "vid" exOptions).promise.isResolved = true :=
  ⟨by decide,
   (capture_succeeds_with_placeholder exEnvAllFail exFs exRegistry "vid" exPlayer exOptions
      (by decide) rfl
      (fun _ _ => Or.inr ⟨retrieverAllFail, rfl, fun _ _ => rfl, rfl⟩)).1⟩

/-- Claim C5: a resolved `ScreenshotResult`'s width and height are the
dimensions of the processed (post-resize) bitmap — the very bitmap whose
encoding is the base64 payload — and when no resize constraint was supplied
the processed bitmap is the captured frame itself. -/
theorem result_reflects_processed_bitmap
    (env : AndroidEnv) (fs : FileSystem) (player : ExoPlayer) (options : ReadableMap)
    (outputMode : ScreenshotOutputMode) (res : ScreenshotResult) (originalBitmap : Bitmap)
    (h : (captureFrameFromPlayer env fs player options outputMode).result = Except.ok res)
    (hext : extractVideoFrame env player = some originalBitmap) :
    res.width = (if 0 < (parseScreenshotOptions options).maxWidth ∨
          0 < (parseScreenshotOptions options).maxHeight then
        resizeBitmapMaintainingAspectRatio originalBitmap
          (parseScreenshotOptions options).maxWidth (parseScreenshotOptions options).maxHeight
      else originalBitmap).width ∧
    res.height = (if 0 < (parseScreenshotOptions options).maxWidth ∨
          0 < (parseScreenshotOptions options).maxHeight then
        resizeBitmapMaintainingAspectRatio originalBitmap
          (parseScreenshotOptions options).maxWidth (parseScreenshotOptions options).maxHeight
      else originalBitmap).height ∧
    res.base64 = Base64Payload.enc (compressBitmapToByteArray env.sdkAtLeastR
      (if 0 < (parseScreenshotOptions options).maxWidth ∨
          0 < (parseScreenshotOptions options).maxHeight then
        resizeBitmapMaintainingAspectRatio originalBitmap
          (parseScreenshotOptions options).maxWidth (parseScreenshotOptions options).maxHeight
      else originalBitmap)
      (parseScreenshotOptions options).format (parseScreenshotOptions options).quality) ∧
    (¬(0 < (parseScreenshotOptions options).maxWidth ∨
        0 < (parseScreenshotOptions options).maxHeight) →
      (if 0 < (parseScreenshotOptions options).maxWidth ∨
          0 < (parseScreenshotOptions options).maxHeight then
        resizeBitmapMaintainingAspectRatio originalBitmap
          (parseScreenshotOptions options).maxWidth (parseScreenshotOptions options).maxHeight
      else originalBitmap) = originalBitmap) := by
  cases hacc : player.accessFault with
  | some msg => simp [captureFrameFromPlayer, hacc] at h
  | none =>
    simp only [captureFrameFromPlayer, hacc, hext] at h
    cases outputMode with
    | base64Only =>
      simp only [Except.ok.injEq] at h
      subst h
      refine ⟨rfl, rfl, rfl, fun hno => if_neg hno⟩
    | saveToLibrary =>
      cases hsave : saveImageToMediaStore env
          (if 0 < (parseScreenshotOptions options).maxWidth ∨
              0 < (parseScreenshotOptions options).maxHeight then
            resizeBitmapMaintainingAspectRatio originalBitmap
              (parseScreenshotOptions options).maxWidth (parseScreenshotOptions options).maxHeight
          else originalBitmap)
          (parseScreenshotOptions options).format with
      | error e => rw [hsave] at h; simp at h
      | ok pair =>
        rw [hsave] at h
        simp only [Except.ok.injEq] at h
        subst h
        refine ⟨rfl, rfl, rfl, fun hno => if_neg hno⟩
    | saveToPath filePath =>
      simp only [Except.ok.injEq] at h
      subst h
      refine ⟨rfl, rfl, rfl, fun hno => if_neg hno⟩

/-- Witness for C5: the default-options capture of the placeholder resolves
with the placeholder's own dimensions. -/
theorem result_reflects_processed_bitmap_witness :
    (captureFrameFromPlayer exEnvAllFail exFs exPlayer exOptions
        ScreenshotOutputMode.base64Only).result = Except.ok exPlaceholderResult ∧
    exPlaceholderResult.width = (if 0 < (parseScreenshotOptions exOptions).maxWidth ∨
          0 < (parseScreenshotOptions exOptions).maxHeight then
        resizeBitmapMaintainingAspectRatio exPlaceholderBitmap
          (parseScreenshotOptions exOptions).maxWidth (parseScreenshotOptions exOptions).maxHeight
      else exPlaceholderBitmap).width :=
  ⟨by with_unfolding_all decide,
   (result_reflects_processed_bitmap exEnvAllFail exFs exPlayer exOptions
      ScreenshotOutputMode.base64Only exPlaceholderResult exPlaceholderBitmap
      (by with_unfolding_all decide) (by with_unfolding_all decide)).1⟩

/-- Claim C7: a write-to-path request on a path whose parent directories do
not exist resolves successfully, creates every missing intermediate directory,
writes exactly the encoded bytes of the request to the path, and reports uri =
the final path and size = the byte length of what was written. -/
theorem save_to_path_creates_dirs_and_reports_size
    (env : AndroidEnv) (fs : FileSystem) (playerRegistry : Registry) (videoId : String)
    (player : ExoPlayer) (filePath : List String) (options : ReadableMap)
    (hfound : getPlayerById playerRegistry videoId = some player)
    (hhealthy : player.accessFault = none)
    (hparent : fs.dirs filePath.dropLast = false) :
    (saveScreenshotToPath env fs playerRegistry videoId filePath options).promise.isResolved = true ∧
    (∀ d, d.isPrefixOf filePath.dropLast = true →
      (saveScreenshotToPath env fs playerRegistry videoId filePath options).fs.dirs d = true) ∧
    ((saveScreenshotToPath env fs playerRegistry videoId filePath options).fs.files filePath).isSome = true ∧
    (∀ res data,
      (saveScreenshotToPath env fs playerRegistry videoId filePath options).promise =
        PromiseOutcome.resolved res →
      (saveScreenshotToPath env fs playerRegistry videoId filePath options).fs.files filePath =
        some data →
      res.base64 = Base64Payload.enc data ∧
      res.uri = some (pathToString filePath) ∧
      res.size = some (env.byteSize data)) := by
  obtain ⟨originalBitmap, hext⟩ := extractVideoFrame_isSome env player
  simp only [saveScreenshotToPath, dispatchScreenshotRequest, hfound]
  simp only [captureFrameFromPlayer, hhealthy, hext, saveImageDataToFile, mkdirs]
  refine ⟨rfl, ?_, ?_, ?_⟩
  · intro d hd
    simp [hd]
  · simp
  · intro res data hres hdata
    simp only [if_pos] at hdata
    simp only [PromiseOutcome.resolved.injEq] at hres
    subst hres
    injection hdata with hdata
    subst hdata
    exact ⟨rfl, rfl, rfl⟩

/-- Witness for C7 at a concrete path with absent parents. -/
theorem save_to_path_creates_dirs_and_reports_size_witness :
    exFs.dirs exPath.dropLast = false ∧
    (saveScreenshotToPath exEnvAllFail exFs exRegistry "vid" exPath exOptions).promise.isResolved = true ∧
    (saveScreenshotToPath exEnvAllFail exFs exRegistry "vid" exPath exOptions).fs.dirs
      ["tmp", "new", "nested", "dir"] = true ∧
    ((saveScreenshotToPath exEnvAllFail exFs exRegistry "vid" exPath exOptions).fs.files exPath).isSome = true :=
  ⟨by decide,
   (save_to_path_creates_dirs_and_reports_size exEnvAllFail exFs exRegistry "vid" exPlayer
      exPath exOptions (by decide) rfl (by decide)).1,
   (save_to_path_creates_dirs_and_reports_size exEnvAllFail exFs exRegistry "vid" exPlayer
      exPath exOptions (by decide) rfl (by decide)).2.1 ["tmp", "new", "nested", "dir"] (by decide),
   (save_to_path_creates_dirs_and_reports_size exEnvAllFail exFs exRegistry "vid" exPlayer
      exPath exOptions (by decide) rfl (by decide)).2.2.1⟩

/-- Counterexample to claim C6 as stated: on Android, a write-to-shared-store
request in an environment where authorization is NOT granted still resolves
successfully and still performs the MediaStore write — no authorization check
precedes the write and no permission error is raised. -/
theorem library_save_without_authorization_counterexample :
    exEnvAllFail.galleryAuthorized = false ∧
    (saveScreenshotToLibrary exEnvAllFail exFs exRegistry "vid" exOptions).promise.isResolved = true ∧
    (saveScreenshotToLibrary exEnvAllFail exFs exRegistry "vid" exOptions).storeWrites ≠ [] := by
  refine ⟨rfl, ?_, ?_⟩ <;> with_unfolding_all decide

/-- Claim C6 amended: the two guarantees are split between the platforms.
On Android the outcome of a write-to-shared-store request is independent of
the platform authorization state (no check is performed, the write proceeds
regardless), and the MediaStore write is bounded by a 10-second budget whose
excess is rejected to the caller as a `SAVE_FAILED` carrying the timeout
cause, with no write recorded.  On iOS an authorization check precedes the
capture: an unauthorized request is rejected with `PERMISSION_DENIED` and the
capture (hence the write) never starts. -/
theorem shared_store_write_platform_guarantees :
    (∀ (env : AndroidEnv) (fs : FileSystem) (playerRegistry : Registry)
        (videoId : String) (options : ReadableMap),
      saveScreenshotToLibrary env fs playerRegistry videoId options =
        saveScreenshotToLibrary { env with galleryAuthorized := true } fs playerRegistry
          videoId options) ∧
    (∀ (env : AndroidEnv) (fs : FileSystem) (playerRegistry : Registry)
        (videoId : String) (player : ExoPlayer) (options : ReadableMap),
      getPlayerById playerRegistry videoId = some player →
      player.accessFault = none →
      10000 < env.mediaStoreWriteMillis →
      (saveScreenshotToLibrary env fs playerRegistry videoId options).promise =
        PromiseOutcome.rejected "SAVE_FAILED" (some CaptureError.mediaStoreTimeout) ∧
      (saveScreenshotToLibrary env fs playerRegistry videoId options).storeWrites = []) ∧
    (∀ (players : String → Option AVPlayer) (videoId : String) (player : AVPlayer)
        (playerItem : AVPlayerItem),
      players videoId = some player →
      player.currentItem = some playerItem →
      iosSaveScreenshotToLibrary players videoId false =
        IosLibraryOutcome.rejected "PERMISSION_DENIED" ∧
      iosLibraryWriteAttempted (iosSaveScreenshotToLibrary players videoId false) = false) := by
  refine ⟨?_, ?_, ?_⟩
  · intro env fs playerRegistry videoId options
    rfl
  · intro env fs playerRegistry videoId player options hfound hhealthy htime
    obtain ⟨originalBitmap, hext⟩ := extractVideoFrame_isSome env player
    have hsave : ∀ b f, saveImageToMediaStore env b f =
        Except.error CaptureError.mediaStoreTimeout := by
      intro b f
      unfold saveImageToMediaStore
      rw [if_pos htime]
    simp only [saveScreenshotToLibrary, dispatchScreenshotRequest, hfound]
    simp [captureFrameFromPlayer, hhealthy, hext, hsave]
  · intro players videoId player playerItem hfound hitem
    simp [iosSaveScreenshotToLibrary, hfound, hitem, iosLibraryWriteAttempted]

/-- Witness for the amended C6 at concrete inputs: authorization-independence
on Android, the 10 s timeout rejection, and the iOS permission rejection. -/
theorem shared_store_write_platform_guarantees_witness :
    (saveScreenshotToLibrary exEnvTimeout exFs exRegistry "vid" exOptions =
      saveScreenshotToLibrary { exEnvTimeout with galleryAuthorized := true } exFs exRegistry
        "vid" exOptions) ∧
    (saveScreenshotToLibrary exEnvTimeout exFs exRegistry "vid" exOptions).promise =
      PromiseOutcome.rejected "SAVE_FAILED" (some CaptureError.mediaStoreTimeout) ∧
    iosSaveScreenshotToLibrary exIosPlayers "vid" false =
      IosLibraryOutcome.rejected "PERMISSION_DENIED" :=
  ⟨(shared_store_write_platform_guarantees).1 exEnvTimeout exFs exRegistry "vid" exOptions,
   ((shared_store_write_platform_guarantees).2.1 exEnvTimeout exFs exRegistry "vid" exPlayer
      exOptions (by decide) rfl (by decide)).1,
   ((shared_store_write_platform_guarantees).2.2 exIosPlayers "vid" exIosPlayer exIosItem
      (by decide) rfl).1⟩

/-- Counterexample to claim C8 as stated: one run in which every extraction
strategy fails (so the result is synthesized from the placeholder) and one run
in which the very first strategy returns a genuinely decoded frame that is
pixel-identical to the placeholder produce EQUAL `ScreenshotResult`s — no tag
or flag distinguishes a placeholder result from a genuine capture. -/
theorem placeholder_result_indistinguishable_counterexample :
    (extractFrameWithMediaMetadataRetriever exEnvAllFail "file:///video.mp4" 0).1 = none ∧
    (extractFrameWithMediaMetadataRetriever exEnvGenuine "file:///video.mp4" 0).1 =
      some exPlaceholderBitmap ∧
    (captureFrameFromPlayer exEnvAllFail exFs exPlayer exOptions
        ScreenshotOutputMode.base64Only).result =
      (captureFrameFromPlayer exEnvGenuine exFs exPlayer exOptions
        ScreenshotOutputMode.base64Only).result := by
  refine ⟨?_, ?_, ?_⟩ <;> with_unfolding_all decide

/-- Claim C8 amended: a `ScreenshotResult` carries NO provenance information:
the capture result is a function of the extracted bitmap alone (given the same
SDK level), so two environments whose extraction yields the same bitmap —
one via placeholder synthesis, one via a genuine decode — give identical
results, and callers cannot distinguish them. -/
theorem capture_result_carries_no_provenance
    (env1 env2 : AndroidEnv) (fs : FileSystem) (player : ExoPlayer) (options : ReadableMap)
    (hsdk : env1.sdkAtLeastR = env2.sdkAtLeastR)
    (hext : extractVideoFrame env1 player = extractVideoFrame env2 player) :
    (captureFrameFromPlayer env1 fs player options ScreenshotOutputMode.base64Only).result =
      (captureFrameFromPlayer env2 fs player options ScreenshotOutputMode.base64Only).result := by
  unfold captureFrameFromPlayer
  rw [hext, hsdk]

/-- Witness for the amended C8: the all-fail environment and the
placeholder-identical-frame environment extract the same bitmap and hence
produce the same result. -/
theorem capture_result_carries_no_provenance_witness :
    extractVideoFrame exEnvAllFail exPlayer = extractVideoFrame exEnvGenuine exPlayer ∧
    (captureFrameFromPlayer exEnvAllFail exFs exPlayer exOptions
        ScreenshotOutputMode.base64Only).result =
      (captureFrameFromPlayer exEnvGenuine exFs exPlayer exOptions
        ScreenshotOutputMode.base64Only).result :=
  ⟨by with_unfolding_all decide,
   capture_result_carries_no_provenance exEnvAllFail exEnvGenuine exFs exPlayer exOptions
     rfl (by with_unfolding_all decide)⟩

/-- Claim C9: `isScreenshotSupported` never rejects, on either platform: it
always resolves a boolean; an unknown or removed id resolves `false`; and an
exception thrown while checking readiness (Android) also resolves `false`. -/
theorem is_screenshot_supported_never_errors :
    (∀ (playerRegistry : Registry) (videoId : String),
      (isScreenshotSupported playerRegistry videoId).isResolved = true) ∧
    (∀ (playerRegistry : Registry) (videoId : String),
      getPlayerById playerRegistry videoId = none →
      isScreenshotSupported playerRegistry videoId = PromiseOutcome.resolved false) ∧
    (∀ (playerRegistry : Registry) (videoId : String) (player : ExoPlayer) (msg : String),
      getPlayerById playerRegistry videoId = some player →
      player.accessFault = some msg →
      isScreenshotSupported playerRegistry videoId = PromiseOutcome.resolved false) ∧
    (∀ (players : String → Option AVPlayer) (videoId : String),
      (iosIsScreenshotSupported players videoId).isResolved = true) ∧
    (∀ (players : String → Option AVPlayer) (videoId : String),
      players videoId = none →
      iosIsScreenshotSupported players videoId = PromiseOutcome.resolved false) := by
  refine ⟨?_, ?_, ?_, ?_, ?_⟩
  · intro playerRegistry videoId
    unfold isScreenshotSupported isPlayerReadyForScreenshot
    cases h : getPlayerById playerRegistry videoId with
    | none => rfl
    | some player =>
      dsimp only
      cases player.accessFault <;> rfl
  · intro playerRegistry videoId h
    unfold isScreenshotSupported
    rw [h]
  · intro playerRegistry videoId player msg h hfault
    unfold isScreenshotSupported isPlayerReadyForScreenshot
    rw [h]
    dsimp only
    rw [hfault]
  · intro players videoId
    unfold iosIsScreenshotSupported
    cases h : players videoId with
    | none => rfl
    | some player =>
      dsimp only
      cases player.currentItem with
      | none => rfl
      | some playerItem =>
        dsimp only
        cases firstVideoAssetTrack playerItem <;> rfl
  · intro players videoId h
    unfold iosIsScreenshotSupported
    rw [h]

/-- Witness for C9: an unknown id, a faulting player, and an unknown iOS id
all resolve `false`. -/
theorem is_screenshot_supported_never_errors_witness :
    isScreenshotSupported emptyRegistry "nope" = PromiseOutcome.resolved false ∧
    isScreenshotSupported exRegistryFault "bad" = PromiseOutcome.resolved false ∧
    iosIsScreenshotSupported (fun _ => none) "nope" = PromiseOutcome.resolved false :=
  ⟨(is_screenshot_supported_never_errors).2.1 emptyRegistry "nope" rfl,
   (is_screenshot_supported_never_errors).2.2.1 exRegistryFault "bad" exFaultPlayer
     "player released" (by decide) rfl,
   (is_screenshot_supported_never_errors).2.2.2.2 (fun _ => none) "nope" rfl⟩

/-- Claim C10: a successful write-to-shared-store request performs exactly one
MediaStore write, re-compressed at the fixed quality 90 regardless of the
request's quality option, while the base64 payload of the same request is
encoded at `⌊quality * 100⌋`; the two encodings are of the same bitmap, and
whenever `⌊quality * 100⌋ ≠ 90` the persisted bytes differ from the payload
bytes. -/
theorem media_store_write_fixed_quality
    (env : AndroidEnv) (fs : FileSystem) (playerRegistry : Registry) (videoId : String)
    (player : ExoPlayer) (options : ReadableMap) (q : ℚ)
    (hfound : getPlayerById playerRegistry videoId = some player)
    (hhealthy : player.accessFault = none)
    (hq : options.quality = some q) (hq0 : 0 ≤ q)
    (hmillis : env.mediaStoreWriteMillis ≤ 10000)
    (hins : env.mediaStoreInsertOk = true)
    (hopen : env.mediaStoreOpenOk = true) :
    (saveScreenshotToLibrary env fs playerRegistry videoId options).promise.isResolved = true ∧
    (saveScreenshotToLibrary env fs playerRegistry videoId options).storeWrites.length = 1 ∧
    (∀ w, w ∈ (saveScreenshotToLibrary env fs playerRegistry videoId options).storeWrites →
      w.bytes.quality = 90) ∧
    (∀ res, (saveScreenshotToLibrary env fs playerRegistry videoId options).promise =
        PromiseOutcome.resolved res →
      res.base64.data.quality = ⌊q * 100⌋ ∧
      (∀ w, w ∈ (saveScreenshotToLibrary env fs playerRegistry videoId options).storeWrites →
        w.bytes.bitmap = res.base64.data.bitmap ∧
        (⌊q * 100⌋ ≠ 90 → w.bytes ≠ res.base64.data))) := by
  obtain ⟨originalBitmap, hext⟩ := extractVideoFrame_isSome env player
  have hquality : (parseScreenshotOptions options).quality = ⌊q * 100⌋ := by
    simp only [parseScreenshotOptions, hq]
    unfold ratTruncToInt
    rw [if_pos (mul_nonneg hq0 (by norm_num))]
    exact ratFloor_eq_intFloor _
  have hsave : ∀ b f, saveImageToMediaStore env b f =
      Except.ok (env.newMediaStoreUri,
        { bytes := ImageBytes.compressed b (compressFormatFor env.sdkAtLeastR f) 90
          mimeType := mimeTypeFor f }) := by
    intro b f
    unfold saveImageToMediaStore
    rw [if_neg (not_lt.mpr hmillis), hins, hopen]
    simp
  simp only [saveScreenshotToLibrary, dispatchScreenshotRequest, hfound]
  simp only [captureFrameFromPlayer, hhealthy, hext, hsave]
  refine ⟨rfl, rfl, ?_, ?_⟩
  · intro w hw
    simp only [List.mem_singleton] at hw
    subst hw
    rfl
  · intro res hres
    simp only [PromiseOutcome.resolved.injEq] at hres
    subst hres
    refine ⟨?_, ?_⟩
    · simp [Base64Payload.data, ImageBytes.quality, compressBitmapToByteArray, hquality]
    · intro w hw
      simp only [List.mem_singleton] at hw
      subst hw
      refine ⟨rfl, fun hne => ?_⟩
      simp only [Base64Payload.data, compressBitmapToByteArray, ne_eq,
        ImageBytes.compressed.injEq, hquality]
      intro hcontr
      exact hne hcontr.2.2.symm

/-- Witness for C10: quality 0.5 yields payload quality 50 and persisted
quality 90 on the same request. -/
theorem media_store_write_fixed_quality_witness :
    (saveScreenshotToLibrary exEnvAllFail exFs exRegistry "vid" exOptionsHalfQ).promise.isResolved = true ∧
    (saveScreenshotToLibrary exEnvAllFail exFs exRegistry "vid" exOptionsHalfQ).storeWrites.length = 1 :=
  ⟨(media_store_write_fixed_quality exEnvAllFail exFs exRegistry "vid" exPlayer exOptionsHalfQ
      (1 / 2) (by decide) rfl rfl (by norm_num) (by decide) rfl rfl).1,
   (media_store_write_fixed_quality exEnvAllFail exFs exRegistry "vid" exPlayer exOptionsHalfQ
      (1 / 2) (by decide) rfl rfl (by norm_num) (by decide) rfl rfl).2.1⟩
